import Mathlib

/-! Servimil: the audio transcription endpoint of `server.mjs`.

A shallow embedding of `src/server.mjs`: the helper `tmp`, the audio fetcher
`downloadAudio`, the normaliser `toWav16k` and the `POST /transcribe` handler.

The collaborators the program only calls (the process environment, `fetch`,
the file system, the transcoding engine, the inference client) are the fields
of a `World`; every call the program makes to one of them is recorded, in
order, in a trace of `Call`s, and the scratch directory is an explicit
file-system state. The `console.error` of the `catch` block and the process
bootstrap (`app.listen`, the health check) are not part of the embedding.
-/

namespace Servimil

/-! ## Values -/

/-- The content of a buffer or file. -/
abbrev Bytes := List Nat

/-- A JavaScript value as this program observes it. The program only ever tests
a value for truthiness and converts it to a string, so every value that is not
`undefined`, `null`, a boolean or a string (a number, an array, an object) is
represented by these two observations. -/
inductive JSVal where
  | undefined
  | null
  | bool (b : Bool)
  | str (s : String)
  | other (truthy : Bool) (rendering : String)
  deriving DecidableEq, Repr

/-- JavaScript truthiness (`!v`, `v ? a : b`, `v || w`, `filter(Boolean)`). -/
def JSVal.truthy : JSVal → Bool
  | .undefined => false
  | .null => false
  | .bool b => b
  | .str s => !(s == "")
  | .other t _ => t

/-- String conversion as performed by a template literal. -/
def JSVal.toStr : JSVal → String
  | .undefined => "undefined"
  | .null => "null"
  | .bool true => "true"
  | .bool false => "false"
  | .str s => s
  | .other _ r => r

/-- The operator `a || b`. -/
def jsOr (a b : JSVal) : JSVal :=
  if a.truthy then a else b

/-- A thrown value, observed through `err.message` (the empty string when the
value has no message) and `String(err)`. -/
structure Thrown where
  message : String
  rendering : String
  deriving DecidableEq, Repr

/-- The value of `new Error(m)`. -/
def newError (m : String) : Thrown :=
  ⟨m, if m = "" then "Error" else "Error: " ++ m⟩

/-! ## Scratch paths and the file system -/

/-- The call `path.join(dir, name)` for a plain segment `name`. -/
def pathJoin (dir name : String) : String :=
  dir ++ "/" ++ name

/-- The helper `tmp = (name) => path.join("/tmp", name || crypto.randomUUID())`.
`randomUUID` is the identifier `crypto.randomUUID()` returns if it is called. -/
def tmp (name : Option String) (randomUUID : String) : String :=
  pathJoin "/tmp"
    (match name with
     | some n => if n = "" then randomUUID else n
     | none => randomUUID)

/-- The files present in the file system, with their content. -/
abbrev FS := List (String × Bytes)

/-- Whether a file exists at `path`. -/
def fileExists (path : String) (fs : FS) : Bool :=
  fs.any (fun f => f.1 == path)

/-- The file system after `path` has been written with `data`. -/
def fsWrite (path : String) (data : Bytes) (fs : FS) : FS :=
  (path, data) :: fs.filter (fun f => !(f.1 == path))

/-- The content of the file at `path`, if it exists. -/
def fsRead (path : String) (fs : FS) : Option Bytes :=
  (fs.find? (fun f => f.1 == path)).map (fun f => f.2)

/-- The file system after `fs.unlink(path).catch(()=>{})`: the file is removed;
the rejection for a file that is absent is swallowed. -/
def fsUnlink (path : String) (fs : FS) : FS :=
  fs.filter (fun f => !(f.1 == path))

/-! ## The collaborators -/

/-- The response object `fetch` resolves to. -/
structure FetchResponse where
  ok : Bool
  status : Nat
  statusText : String
  contentType : Option String
  arrayBuffer : Except Thrown Bytes

/-- What `await fetch(url, { headers })` does. -/
inductive FetchOutcome where
  | rejected (e : Thrown)
  | responded (r : FetchResponse)

/-- What a run of the transcoding engine does: it emits `end` having written
the output file, or it emits `error`, having possibly left an output file. -/
inductive FfmpegOutcome where
  | ended (wav : Bytes)
  | failed (e : Thrown) (leftover : Option Bytes)

/-- One part of a candidate. -/
structure Part where
  text : JSVal

/-- The content of a candidate. -/
structure Content where
  parts : Option (List Part)

/-- One candidate of an inference response. -/
structure Candidate where
  content : Option Content

/-- The property `text` of an inference response when it is called as
`text?.()`: absent, a function that returns, or a call that throws. -/
inductive TextAccessor where
  | absent
  | returns (v : JSVal)
  | throws (e : Thrown)

/-- The object `result.response`. -/
structure GenResponse where
  text : TextAccessor
  candidates : Option (List Candidate)

/-- The value `ai.models.generateContent` resolves to. The handler reads only
its property `response`; `text` and `candidates` are the properties the reply of
the `@google/genai` client carries at its top level, which line 93 never
reads. -/
structure GenResult where
  response : Option GenResponse
  text : JSVal
  candidates : Option (List Candidate)

/-- The environment of the program. -/
structure World where
  /-- The variable `process.env.META_WA_TOKEN`. -/
  META_WA_TOKEN : Option String
  /-- The identifiers `crypto.randomUUID()` returns, in call order. -/
  randomUUID : Nat → String
  /-- The global `fetch`, given the URL and the headers. -/
  fetch : String → List (String × String) → FetchOutcome
  /-- The rejection of `fs.writeFile`, if it fails. -/
  writeFault : Option Thrown
  /-- The transcoding engine, given the content of the input file. -/
  ffmpeg : Bytes → FfmpegOutcome
  /-- The rejection of `fs.readFile`, if it fails on a file that exists. -/
  readFault : Option Thrown
  /-- The inference call, given the model, the instruction text, the MIME type
  and the audio whose base64 text is sent. -/
  generateContent : String → String → String → Bytes → Except Thrown (Option GenResult)

/-- A call the program makes to a collaborator. -/
inductive Call where
  | fetch (url : String) (headers : List (String × String))
  | writeFile (path : String) (data : Bytes)
  | ffmpegRun (inFile outFile : String)
  | readFile (path : String)
  | unlink (path : String)
  | generateContent (model sys mimeType : String) (audio : Bytes)
  deriving DecidableEq, Repr

/-! ## The audio fetcher -/

/-- Whether `p` occurs in `s` as a contiguous run. -/
def containsSub (p : List Char) : List Char → Bool
  | [] => p.isEmpty
  | c :: cs => p.isPrefixOf (c :: cs) || containsSub p cs

/-- The alternatives of the regular expression
`/graph\.facebook\.com|lookaside\.fbcdn\.net|\.fbsbx\.com/`, each a literal. -/
def mediaPatterns : List String :=
  ["graph.facebook.com", "lookaside.fbcdn.net", ".fbsbx.com"]

/-- The test `/graph\.facebook\.com|lookaside\.fbcdn\.net|\.fbsbx\.com/.test(s)`:
one of the literals occurs somewhere in `s`. -/
def mediaPatternTest (s : String) : Bool :=
  mediaPatterns.any (fun p => containsSub p.data s.data)

/-- The error thrown when the messaging-platform credential is needed and not set. -/
def tokenError : Thrown :=
  newError "El audio requiere token de WhatsApp. Define META_WA_TOKEN en Render."

/-- The first lines of `downloadAudio`: the headers of the outbound request,
or the error thrown before any request is made. -/
def requestHeaders (token : Option String) (url : String) :
    Except Thrown (List (String × String)) :=
  if mediaPatternTest url then
    match token with
    | none => .error tokenError
    | some t =>
      if t = "" then .error tokenError
      else .ok [("Authorization", "Bearer " ++ t)]
  else .ok []

/-- The error thrown for a response whose `ok` is false. -/
def statusError (status : Nat) (statusText : String) : Thrown :=
  newError ("No se pudo descargar audio: " ++ toString status ++ " " ++ statusText)

/-- The expression `ct.split(";")[0] || "audio/ogg"` for
`ct = (res.headers.get("content-type") || "").toLowerCase()`
(header values are ASCII). -/
def contentTypeOf (header : Option String) : String :=
  let ct := (header.getD "").data.map Char.toLower
  let first := String.mk (ct.takeWhile (fun c => c != ';'))
  if first = "" then "audio/ogg" else first

/-- The value `downloadAudio` returns. -/
structure Download where
  buf : Bytes
  contentType : String

/-- The outcome of a stage: what it returns or throws, and the calls it made. -/
structure Stage (α : Type) where
  result : Except Thrown α
  trace : List Call

/-- The function `downloadAudio(url)`. -/
def downloadAudio (w : World) (url : String) : Stage Download :=
  match requestHeaders w.META_WA_TOKEN url with
  | .error e => ⟨.error e, []⟩
  | .ok headers =>
    match w.fetch url headers with
    | .rejected e => ⟨.error e, [.fetch url headers]⟩
    | .responded res =>
      if !res.ok then
        ⟨.error (statusError res.status res.statusText), [.fetch url headers]⟩
      else
        match res.arrayBuffer with
        | .error e => ⟨.error e, [.fetch url headers]⟩
        | .ok buf => ⟨.ok ⟨buf, contentTypeOf res.contentType⟩, [.fetch url headers]⟩

/-! ## The normaliser -/

/-- The scratch paths `inFile` and `outFile` of a call of `toWav16k`. -/
def scratchPaths (w : World) : String × String :=
  (tmp (some "in.ogg") (w.randomUUID 0), tmp (some "out.wav") (w.randomUUID 1))

/-- The rejection of `fs.readFile` for a file that does not exist. -/
def noSuchFile (path : String) : Thrown :=
  newError ("ENOENT: no such file or directory, open \x27" ++ path ++ "\x27")

/-- The outcome of `toWav16k`: what it returns or throws, the calls it made and
the file system it leaves. -/
structure Transcode where
  result : Except Thrown Bytes
  trace : List Call
  fs : FS

/-- The function `toWav16k(inputBuf)`, run on the file system `fs`. -/
def toWav16k (w : World) (inputBuf : Bytes) (fs : FS) : Transcode :=
  let inFile := (scratchPaths w).1
  let outFile := (scratchPaths w).2
  match w.writeFault with
  | some e => ⟨.error e, [.writeFile inFile inputBuf], fs⟩
  | none =>
    let fs1 := fsWrite inFile inputBuf fs
    match w.ffmpeg inputBuf with
    | .failed e leftover =>
      let fs2 := match leftover with
        | some data => fsWrite outFile data fs1
        | none => fs1
      ⟨.error e, [.writeFile inFile inputBuf, .ffmpegRun inFile outFile], fs2⟩
    | .ended out =>
      let fs2 := fsWrite outFile out fs1
      let calls := [Call.writeFile inFile inputBuf, .ffmpegRun inFile outFile, .readFile outFile]
      match w.readFault with
      | some e => ⟨.error e, calls, fs2⟩
      | none =>
        match fsRead outFile fs2 with
        | none => ⟨.error (noSuchFile outFile), calls, fs2⟩
        | some wav =>
          ⟨.ok wav, calls ++ [.unlink inFile, .unlink outFile],
            fsUnlink outFile (fsUnlink inFile fs2)⟩

/-! ## The transcription client -/

/-- The join of an array with a separator: `undefined` and `null` elements
render as the empty string. -/
def jsJoin (sep : String) (xs : List JSVal) : String :=
  sep.intercalate (xs.map (fun v =>
    match v with
    | .undefined => ""
    | .null => ""
    | v => v.toStr))

/-- The first fixed line of the instruction. -/
def roleLine : String := "Eres un transcriptor fiable."

/-- The second fixed line of the instruction. -/
def directiveLine : String :=
  "Regresa SOLO la transcripción del audio, sin notas ni formato extra."

/-- The constant `sys` of the handler. -/
def sysInstruction (language prompt : JSVal) : String :=
  jsJoin "\n"
    ([ JSVal.str roleLine,
       JSVal.str directiveLine,
       if language.truthy then .str ("Idioma principal esperado: " ++ language.toStr) else .null,
       if prompt.truthy then .str ("Instrucción adicional: " ++ prompt.toStr) else .null
     ].filter JSVal.truthy)

/-- The expression `result?.response?.text?.()`. -/
def directText (result : Option GenResult) : Except Thrown JSVal :=
  match result with
  | none => .ok .undefined
  | some r =>
    match r.response with
    | none => .ok .undefined
    | some resp =>
      match resp.text with
      | .absent => .ok .undefined
      | .returns v => .ok v
      | .throws e => .error e

/-- The expression `result?.response?.candidates?.[0]?.content?.parts?.[0]?.text`. -/
def candidateText (result : Option GenResult) : JSVal :=
  match result with
  | none => .undefined
  | some r =>
    match r.response with
    | none => .undefined
    | some resp =>
      match resp.candidates with
      | some (c :: _) =>
        match c.content with
        | some content =>
          match content.parts with
          | some (p :: _) => p.text
          | _ => .undefined
        | none => .undefined
      | _ => .undefined

/-- The constant `transcript` of the handler:
`result?.response?.text?.() || result?.response?.candidates?.[0]?.content?.parts?.[0]?.text || ""`. -/
def extractTranscript (result : Option GenResult) : Except Thrown JSVal :=
  match directText result with
  | .error e => .error e
  | .ok direct => .ok (jsOr (jsOr direct (candidateText result)) (.str ""))

/-! ## The request handler -/

/-- The destructured fields of the request body (`undefined` when missing). -/
structure ReqBody where
  audio_url : JSVal
  language : JSVal
  prompt : JSVal

/-- The inbound request: `body` is `none` when `req.body` is falsy. -/
structure Request where
  body : Option ReqBody

/-- The response sent: the status and the fields of the JSON object. -/
structure HttpResponse where
  status : Nat
  json : List (String × JSVal)
  deriving DecidableEq, Repr

/-- The outcome of handling a request. -/
structure Handled where
  response : HttpResponse
  trace : List Call
  fs : FS

/-- The response `res.status(400).json({ error: "Falta audio_url en el body" })`. -/
def missingUrlResponse : HttpResponse :=
  ⟨400, [("error", .str "Falta audio_url en el body")]⟩

/-- The response of the `catch` block:
`res.status(500).json({ ok: false, error: err.message || String(err) })`. -/
def errorResponse (err : Thrown) : HttpResponse :=
  ⟨500, [("ok", .bool false),
         ("error", .str (if err.message = "" then err.rendering else err.message))]⟩

/-- The response `res.json({ ok: true, transcript, reply: transcript })`. -/
def okResponse (transcript : JSVal) : HttpResponse :=
  ⟨200, [("ok", .bool true), ("transcript", transcript), ("reply", transcript)]⟩

/-- The model the handler names. -/
def model : String := "gemini-2.5-flash"

/-- The error thrown when the transcript is falsy. -/
def noTextError : Thrown := newError "Gemini no devolvió texto"

/-- The handler of `POST /transcribe`, run on the file system `fs`. -/
def transcribe (w : World) (req : Request) (fs : FS) : Handled :=
  let body := req.body.getD ⟨.undefined, .undefined, .undefined⟩
  if !body.audio_url.truthy then ⟨missingUrlResponse, [], fs⟩
  else
    let dl := downloadAudio w body.audio_url.toStr
    match dl.result with
    | .error e => ⟨errorResponse e, dl.trace, fs⟩
    | .ok d =>
      let tr := toWav16k w d.buf fs
      match tr.result with
      | .error e => ⟨errorResponse e, dl.trace ++ tr.trace, tr.fs⟩
      | .ok wav =>
        let sys := sysInstruction body.language body.prompt
        let calls := dl.trace ++ tr.trace ++ [.generateContent model sys "audio/wav" wav]
        match w.generateContent model sys "audio/wav" wav with
        | .error e => ⟨errorResponse e, calls, tr.fs⟩
        | .ok result =>
          match extractTranscript result with
          | .error e => ⟨errorResponse e, calls, tr.fs⟩
          | .ok transcript =>
            if !transcript.truthy then ⟨errorResponse noTextError, calls, tr.fs⟩
            else ⟨okResponse transcript, calls, tr.fs⟩

/-! ## Concrete environments and inputs -/

/-- An inference result whose `response` has a direct accessor returning `v`
and no candidates. -/
def directResult (v : JSVal) : Option GenResult :=
  some ⟨some ⟨.returns v, none⟩, .undefined, none⟩

/-- The reply of the `@google/genai` client for a transcript `t`: the text is
the value of its own `text` property and of the first part of its first
candidate; it has no `response` property. -/
def genaiReply (t : String) : Option GenResult :=
  some ⟨none, .str t, some [⟨some ⟨some [⟨.str t⟩]⟩⟩]⟩

/-- An inference result whose direct accessor returns the empty string while the
first part of its first candidate carries `hola`. -/
def emptyDirectResult : Option GenResult :=
  some ⟨some ⟨.returns (.str ""), some [⟨some ⟨some [⟨.str "hola"⟩]⟩⟩]⟩, .undefined, none⟩

/-- An environment in which every collaborator succeeds: no credential is set,
the audio is served with status 200, the engine ends and the inference
client replies with the transcript `hola`. -/
def calmWorld : World where
  META_WA_TOKEN := none
  randomUUID := fun n => toString n
  fetch := fun _ _ => .responded ⟨true, 200, "OK", some "audio/ogg; codecs=opus", .ok [79, 103, 103]⟩
  writeFault := none
  ffmpeg := fun _ => .ended [82, 73, 70, 70]
  readFault := none
  generateContent := fun _ _ _ _ => .ok (genaiReply "hola")

/-- A request body that carries only the audio URL `url`. -/
def urlOnly (url : String) : ReqBody :=
  ⟨.str url, .undefined, .undefined⟩

/-- The environment `calmWorld` with the transcoding engine emitting an error
and leaving no output file. -/
def engineFailWorld : World :=
  { calmWorld with ffmpeg := fun _ => .failed (newError "ffmpeg exited with code 1") none }

/-- The environment `calmWorld` with the read of the output file rejected. -/
def readFailWorld : World :=
  { calmWorld with readFault := some (newError "EIO: i/o error, read") }

/-- The environment `calmWorld` with the messaging-platform credential set to `t`. -/
def tokenWorld (t : String) : World :=
  { calmWorld with META_WA_TOKEN := some t }

/-- The environment `calmWorld` with the audio host answering 404. -/
def notFoundWorld : World :=
  { calmWorld with fetch := fun _ _ => .responded ⟨false, 404, "Not Found", none, .ok []⟩ }

/-- The environment `calmWorld` with an inference result that has no `response`
and no text. -/
def silentWorld : World :=
  { calmWorld with generateContent := fun _ _ _ _ => .ok (some ⟨none, .undefined, none⟩) }

/-- The environment `calmWorld` with an inference result that carries `hola`
under `response`, behind the direct accessor. -/
def legacyWorld : World :=
  { calmWorld with generateContent := fun _ _ _ _ => .ok (directResult (.str "hola")) }

/-- A URL of the media host `graph.facebook.com`, written in upper case. -/
def upperHostUrl : String := "https://GRAPH.FACEBOOK.COM/media/xyz"

/-- A URL of a foreign host that names a media host in its query. -/
def foreignUrl : String := "https://evil.example/?u=graph.facebook.com"

/-! ## Auxiliary facts -/

theorem append_ne_empty (a b : String) (h : a ≠ "") : a ++ b ≠ "" := by
  intro hab
  apply h
  have hd : (a ++ b).data = ("" : String).data := by rw [hab]
  rw [String.data_append] at hd
  have ha : a.data = [] := (List.append_eq_nil.mp hd).1
  exact String.ext ha

theorem truthy_str_append (a b : String) (h : a ≠ "") :
    (JSVal.str (a ++ b)).truthy = true := by
  simp [JSVal.truthy, append_ne_empty a b h]

theorem errorResponse_newError (m : String) (h : m ≠ "") :
    errorResponse (newError m) = ⟨500, [("ok", .bool false), ("error", .str m)]⟩ := by
  simp [errorResponse, newError, h]

theorem containsSub_iff (p s : List Char) : containsSub p s = true ↔ p <:+: s := by
  induction s with
  | nil => simp [containsSub, List.isEmpty_iff]
  | cons c cs ih =>
    simp only [containsSub, Bool.or_eq_true, ih, List.infix_cons_iff,
      List.isPrefixOf_iff_prefix]

theorem mediaPatternTest_of_host (pre host post : String)
    (h : mediaPatternTest host = true) :
    mediaPatternTest (pre ++ host ++ post) = true := by
  simp only [mediaPatternTest, List.any_eq_true] at h ⊢
  obtain ⟨p, hp, hc⟩ := h
  refine ⟨p, hp, ?_⟩
  rw [containsSub_iff] at hc ⊢
  obtain ⟨a, b, hab⟩ := hc
  refine ⟨pre.data ++ a, b ++ post.data, ?_⟩
  simp [String.data_append, ← hab, List.append_assoc]

theorem mediaPatternTest_ne_empty (s : String) (h : mediaPatternTest s = true) :
    s ≠ "" := by
  intro hs
  subst hs
  revert h
  decide

/-- Every call `downloadAudio` makes is a fetch. -/
theorem downloadAudio_trace_fetch (w : World) (url : String) (c : Call)
    (h : c ∈ (downloadAudio w url).trace) : ∃ u hs, c = .fetch u hs := by
  unfold downloadAudio at h
  split at h
  · simp at h
  · split at h
    · exact ⟨_, _, by simpa using h⟩
    · split at h
      · exact ⟨_, _, by simpa using h⟩
      · split at h
        · exact ⟨_, _, by simpa using h⟩
        · exact ⟨_, _, by simpa using h⟩

/-- The normaliser never calls the inference service. -/
theorem toWav16k_trace_no_inference (w : World) (inputBuf : Bytes) (fs : FS)
    (m s t : String) (a : Bytes) :
    Call.generateContent m s t a ∉ (toWav16k w inputBuf fs).trace := by
  unfold toWav16k
  simp only []
  split
  · simp
  · split
    · simp
    · split
      · simp
      · split <;> simp

/-- Every inference call of the handler carries the instruction built from the
language and the prompt of the request. -/
theorem transcribe_inference_sys (w : World) (b : ReqBody) (fs : FS)
    (m s t : String) (a : Bytes)
    (h : Call.generateContent m s t a ∈ (transcribe w ⟨some b⟩ fs).trace) :
    s = sysInstruction b.language b.prompt := by
  have hdl : Call.generateContent m s t a ∉ (downloadAudio w b.audio_url.toStr).trace := by
    intro hc
    obtain ⟨u, hs, hu⟩ := downloadAudio_trace_fetch _ _ _ hc
    cases hu
  unfold transcribe at h
  simp only [Option.getD] at h
  split_ifs at h with h1
  · simp at h
  · split at h
    · exact absurd h hdl
    · rename_i d _
      have htr := toWav16k_trace_no_inference w d.buf fs m s t a
      split at h
      · simp only [List.mem_append] at h
        rcases h with h | h
        · exact absurd h hdl
        · exact absurd h htr
      · rename_i wav _
        have key : Call.generateContent m s t a ∈
            (downloadAudio w b.audio_url.toStr).trace ++ (toWav16k w d.buf fs).trace ++
              [Call.generateContent model (sysInstruction b.language b.prompt) "audio/wav" wav] →
            s = sysInstruction b.language b.prompt := by
          intro hmem
          simp only [List.mem_append, List.mem_singleton] at hmem
          rcases hmem with (hmem | hmem) | hmem
          · exact absurd hmem hdl
          · exact absurd hmem htr
          · injection hmem
        split at h
        · exact key h
        · split at h
          · exact key h
          · split_ifs at h <;> exact key h

/-! ## Entry validation -/

/-- C1: a request without body, or whose `audio_url` is missing, `null` or the
empty string, is answered with status 400 and the object
`{ error: "Falta audio_url en el body" }`; no collaborator is called and the
file system is untouched. -/
theorem transcribe_missing_audio_url (w : World) (req : Request) (fs : FS)
    (h : req.body = none ∨ ∃ b, req.body = some b ∧
      (b.audio_url = .undefined ∨ b.audio_url = .null ∨ b.audio_url = .str "")) :
    (transcribe w req fs).response.status = 400 ∧
    (transcribe w req fs).response.json = [("error", .str "Falta audio_url en el body")] ∧
    (transcribe w req fs).trace = [] ∧
    (transcribe w req fs).fs = fs := by
  have hfalsy : (req.body.getD ⟨.undefined, .undefined, .undefined⟩).audio_url.truthy = false := by
    rcases h with h | ⟨b, hb, hu | hu | hu⟩
    · simp [h, JSVal.truthy]
    · simp [hb, hu, JSVal.truthy]
    · simp [hb, hu, JSVal.truthy]
    · simp [hb, hu, JSVal.truthy]
  simp [transcribe, hfalsy, missingUrlResponse]

/-- C1, at a request whose `audio_url` is the empty string. -/
theorem transcribe_missing_audio_url_witness :
    (transcribe calmWorld ⟨some (urlOnly "")⟩ []).response.status = 400 ∧
    (transcribe calmWorld ⟨some (urlOnly "")⟩ []).response.json =
      [("error", .str "Falta audio_url en el body")] ∧
    (transcribe calmWorld ⟨some (urlOnly "")⟩ []).trace = [] ∧
    (transcribe calmWorld ⟨some (urlOnly "")⟩ []).fs = [] :=
  transcribe_missing_audio_url calmWorld ⟨some (urlOnly "")⟩ []
    (Or.inr ⟨urlOnly "", rfl, Or.inr (Or.inr rfl)⟩)

/-! ## Scratch paths -/

/-- C8: the scratch paths of `toWav16k` are the fixed paths `/tmp/in.ogg` and
`/tmp/out.wav` whatever identifiers the random generator yields, so any two
invocations use the same two files. -/
theorem scratchPaths_shared (w₁ w₂ : World) :
    scratchPaths w₁ = ("/tmp/in.ogg", "/tmp/out.wav") ∧
    scratchPaths w₁ = scratchPaths w₂ := by
  have h : ∀ w : World, scratchPaths w = ("/tmp/in.ogg", "/tmp/out.wav") := by
    intro w
    have hin : ¬ ("in.ogg" = "") := by decide
    have hout : ¬ ("out.wav" = "") := by decide
    simp only [scratchPaths, tmp, pathJoin, if_neg hin, if_neg hout]
    decide
  exact ⟨h w₁, by rw [h w₁, h w₂]⟩

/-! ## The instruction text -/

/-- C9: the instruction is the line-break join of the role line, the directive
line, the language line exactly when the language is truthy and the prompt line
exactly when the prompt is truthy; with both hints absent, `null` or empty it
is the two fixed lines; and every inference call of the handler carries this
instruction. -/
theorem sysInstruction_lines (language prompt : JSVal) :
    sysInstruction language prompt =
      "\n".intercalate
        ([roleLine, directiveLine]
          ++ (if language.truthy then ["Idioma principal esperado: " ++ language.toStr] else [])
          ++ (if prompt.truthy then ["Instrucción adicional: " ++ prompt.toStr] else []))
    ∧ sysInstruction .undefined .undefined = roleLine ++ "\n" ++ directiveLine
    ∧ sysInstruction .null .null = roleLine ++ "\n" ++ directiveLine
    ∧ sysInstruction (.str "") (.str "") = roleLine ++ "\n" ++ directiveLine
    ∧ ∀ (w : World) (url : JSVal) (fs : FS) (m s t : String) (a : Bytes),
        Call.generateContent m s t a ∈ (transcribe w ⟨some ⟨url, language, prompt⟩⟩ fs).trace →
        s = sysInstruction language prompt := by
  refine ⟨?_, by decide, by decide, by decide,
    fun w url fs m s t a h => transcribe_inference_sys w ⟨url, language, prompt⟩ fs m s t a h⟩
  unfold sysInstruction
  generalize language.truthy = bl
  generalize prompt.truthy = bp
  generalize language.toStr = ls
  generalize prompt.toStr = ps
  have hl := truthy_str_append "Idioma principal esperado: " ls (by decide)
  have hp := truthy_str_append "Instrucción adicional: " ps (by decide)
  have hr : (JSVal.str roleLine).truthy = true := by decide
  have hd : (JSVal.str directiveLine).truthy = true := by decide
  have hn : JSVal.null.truthy = false := rfl
  cases bl <;> cases bp <;>
    simp only [jsJoin, List.filter, hl, hp, hr, hd, hn, List.map,
      JSVal.toStr, if_true, if_false, Bool.false_eq_true, List.cons_append, List.nil_append,
      List.append_nil]

/-- C9, at a request without hints: the inference call carries the two fixed lines. -/
theorem sysInstruction_lines_witness :
    Call.generateContent model (roleLine ++ "\n" ++ directiveLine) "audio/wav" [82, 73, 70, 70]
      ∈ (transcribe calmWorld ⟨some (urlOnly "https://example.com/note.ogg")⟩ []).trace ∧
    roleLine ++ "\n" ++ directiveLine = sysInstruction .undefined .undefined :=
  ⟨by decide,
    (sysInstruction_lines .undefined .undefined).2.2.2.2 calmWorld
      (.str "https://example.com/note.ogg") [] model (roleLine ++ "\n" ++ directiveLine)
      "audio/wav" [82, 73, 70, 70] (by decide)⟩

/-! ## Transcript extraction -/

/-- C10, as stated, fails: the direct accessor is available and returns the
empty string, yet the transcript is the text of the first part of the first
candidate. -/
theorem extractTranscript_empty_direct_falls_back :
    directText emptyDirectResult = .ok (.str "") ∧
    extractTranscript emptyDirectResult = .ok (.str "hola") ∧
    extractTranscript emptyDirectResult ≠ directText emptyDirectResult := by
  refine ⟨rfl, rfl, ?_⟩
  intro h
  have h2 : (Except.ok (JSVal.str "hola") : Except Thrown JSVal) = .ok (.str "") := h
  injection h2 with h3
  revert h3
  decide

/-- C10, amended: a truthy result of the direct accessor is the transcript;
when the accessor is unavailable (its value is `undefined`) or returns a falsy
value, the transcript is the text of the first part of the first candidate if
that text is truthy, and the empty string otherwise. -/
theorem extractTranscript_order (result : Option GenResult) (v : JSVal)
    (hd : directText result = .ok v) :
    (v.truthy = true → extractTranscript result = .ok v) ∧
    (v.truthy = false → (candidateText result).truthy = true →
      extractTranscript result = .ok (candidateText result)) ∧
    (v.truthy = false → (candidateText result).truthy = false →
      extractTranscript result = .ok (.str "")) := by
  refine ⟨?_, ?_, ?_⟩
  · intro hv
    simp [extractTranscript, hd, jsOr, hv]
  · intro hv hc
    simp [extractTranscript, hd, jsOr, hv, hc]
  · intro hv hc
    simp [extractTranscript, hd, jsOr, hv, hc]

/-- C10, amended, at the result whose accessor returns the empty string. -/
theorem extractTranscript_order_witness :
    directText emptyDirectResult = .ok (.str "") ∧
    extractTranscript emptyDirectResult = .ok (candidateText emptyDirectResult) :=
  ⟨rfl, (extractTranscript_order emptyDirectResult (.str "") rfl).2.1 rfl rfl⟩

/-! ## The normaliser and its scratch files -/

theorem fileExists_fsUnlink_self (p : String) (fs : FS) :
    fileExists p (fsUnlink p fs) = false := by
  simp [fileExists, fsUnlink, List.any_filter]

theorem fileExists_fsUnlink_of_absent (p q : String) (fs : FS)
    (h : fileExists p fs = false) : fileExists p (fsUnlink q fs) = false := by
  simp only [fileExists, fsUnlink, List.any_filter, List.any_eq_false] at h ⊢
  intro f hf
  simp [h f hf]

/-- When `toWav16k` returns, neither scratch file exists. -/
theorem toWav16k_ok_removes_scratch (w : World) (inputBuf wav : Bytes) (fs : FS)
    (h : (toWav16k w inputBuf fs).result = .ok wav) :
    fileExists (scratchPaths w).1 (toWav16k w inputBuf fs).fs = false ∧
    fileExists (scratchPaths w).2 (toWav16k w inputBuf fs).fs = false := by
  unfold toWav16k at h ⊢
  cases hw : w.writeFault with
  | some e => simp [hw] at h
  | none =>
    cases hf : w.ffmpeg inputBuf with
    | failed e l => simp [hw, hf] at h
    | ended out =>
      cases hr : w.readFault with
      | some e => simp [hw, hf, hr] at h
      | none =>
        cases hread : fsRead (scratchPaths w).2
            (fsWrite (scratchPaths w).2 out (fsWrite (scratchPaths w).1 inputBuf fs)) with
        | none => simp [hw, hf, hr, hread] at h
        | some data =>
          simp only [hw, hf, hr, hread]
          exact ⟨fileExists_fsUnlink_of_absent _ _ _ (fileExists_fsUnlink_self _ _),
            fileExists_fsUnlink_self _ _⟩

/-- C2: when the transcoding engine emits an error, `toWav16k` throws that
error after the calls `writeFile` and `run` only, and the input file it wrote
is still present; when the read of the output file is rejected, both scratch
files are still present. -/
theorem toWav16k_error_leaves_scratch :
    (toWav16k engineFailWorld [79, 103, 103] []).result
      = .error (newError "ffmpeg exited with code 1") ∧
    (toWav16k engineFailWorld [79, 103, 103] []).trace
      = [.writeFile "/tmp/in.ogg" [79, 103, 103], .ffmpegRun "/tmp/in.ogg" "/tmp/out.wav"] ∧
    fileExists "/tmp/in.ogg" (toWav16k engineFailWorld [79, 103, 103] []).fs = true ∧
    (toWav16k readFailWorld [79, 103, 103] []).result
      = .error (newError "EIO: i/o error, read") ∧
    fileExists "/tmp/in.ogg" (toWav16k readFailWorld [79, 103, 103] []).fs = true ∧
    fileExists "/tmp/out.wav" (toWav16k readFailWorld [79, 103, 103] []).fs = true := by
  refine ⟨rfl, ?_, ?_, rfl, ?_, ?_⟩ <;> decide

/-! ## The audio fetcher -/

/-- C3: for a URL of the host `evil.example`, which matches no media pattern,
that names `graph.facebook.com` in its query, the request carries the bearer
credential, and the headers change with the credential. -/
theorem downloadAudio_sends_token_to_foreign_host :
    foreignUrl = "https://" ++ "evil.example" ++ "/?u=graph.facebook.com" ∧
    mediaPatternTest "evil.example" = false ∧
    requestHeaders (some "secret") foreignUrl = .ok [("Authorization", "Bearer secret")] ∧
    requestHeaders (some "other") foreignUrl = .ok [("Authorization", "Bearer other")] ∧
    (downloadAudio (tokenWorld "secret") foreignUrl).trace
      = [.fetch foreignUrl [("Authorization", "Bearer secret")]] ∧
    (downloadAudio (tokenWorld "secret") foreignUrl).trace
      ≠ (downloadAudio (tokenWorld "other") foreignUrl).trace := by
  refine ⟨by decide, by decide, rfl, rfl, by decide, by decide⟩

/-- When the text of the URL holds a media pattern literally, with the
credential unset or empty, `downloadAudio` throws the configuration error
without any call, and the handler answers 500 with that message and an empty
trace. -/
theorem transcribe_media_url_without_token (w : World) (fs : FS)
    (pre host post : String) (language prompt : JSVal)
    (hh : mediaPatternTest host = true)
    (ht : w.META_WA_TOKEN = none ∨ w.META_WA_TOKEN = some "") :
    (downloadAudio w (pre ++ host ++ post)).result = .error tokenError ∧
    (downloadAudio w (pre ++ host ++ post)).trace = [] ∧
    (transcribe w ⟨some ⟨.str (pre ++ host ++ post), language, prompt⟩⟩ fs).response
      = ⟨500, [("ok", .bool false),
          ("error", .str "El audio requiere token de WhatsApp. Define META_WA_TOKEN en Render.")]⟩ ∧
    (transcribe w ⟨some ⟨.str (pre ++ host ++ post), language, prompt⟩⟩ fs).trace = [] := by
  have hm := mediaPatternTest_of_host pre host post hh
  have hne := mediaPatternTest_ne_empty _ hm
  have hrh : requestHeaders w.META_WA_TOKEN (pre ++ host ++ post) = .error tokenError := by
    rcases ht with ht | ht <;> simp [requestHeaders, hm, ht]
  have hdl : downloadAudio w (pre ++ host ++ post) = ⟨.error tokenError, []⟩ := by
    simp [downloadAudio, hrh]
  have hu : (JSVal.str (pre ++ host ++ post)).truthy = true := by
    simp [JSVal.truthy, hne]
  have hresp : errorResponse tokenError = ⟨500, [("ok", .bool false),
      ("error", .str "El audio requiere token de WhatsApp. Define META_WA_TOKEN en Render.")]⟩ :=
    errorResponse_newError _ (by decide)
  refine ⟨by rw [hdl], by rw [hdl], ?_, ?_⟩
  · simp only [transcribe, Option.getD, hu, JSVal.toStr, hdl, hresp, Bool.not_true,
      Bool.false_eq_true, if_false]
  · simp only [transcribe, Option.getD, hu, JSVal.toStr, hdl, Bool.not_true,
      Bool.false_eq_true, if_false]

/-- C5: the URL `https://GRAPH.FACEBOOK.COM/media/xyz` targets the media host
`graph.facebook.com` (its host in lower case matches the pattern), yet with the
credential unset or empty the test of line 26 fails on it: no configuration
error is thrown, the audio is fetched with no header, and the handler goes on
to the later stages. -/
theorem downloadAudio_upper_case_media_host_unauthenticated :
    upperHostUrl = "https://" ++ "GRAPH.FACEBOOK.COM" ++ "/media/xyz" ∧
    mediaPatternTest (String.mk ("GRAPH.FACEBOOK.COM".data.map Char.toLower)) = true ∧
    mediaPatternTest upperHostUrl = false ∧
    requestHeaders none upperHostUrl = .ok [] ∧
    requestHeaders (some "") upperHostUrl = .ok [] ∧
    (downloadAudio calmWorld upperHostUrl).result = .ok ⟨[79, 103, 103], "audio/ogg"⟩ ∧
    (downloadAudio calmWorld upperHostUrl).trace = [.fetch upperHostUrl []] ∧
    (transcribe calmWorld ⟨some (urlOnly upperHostUrl)⟩ []).trace.head?
      = some (.fetch upperHostUrl []) ∧
    (transcribe calmWorld ⟨some (urlOnly upperHostUrl)⟩ []).response
      ≠ errorResponse tokenError := by
  refine ⟨by decide, by decide, by decide, rfl, rfl, rfl, by decide, by decide, by decide⟩

/-! ## The handler: failure and success envelopes -/

/-- C7: when the fetch resolves to a response whose `ok` is false,
`downloadAudio` throws an error whose message is
`No se pudo descargar audio: <status> <statusText>`, which contains the decimal
status and the status text; the fetch is the only call made, and the handler
answers 500 with `ok: false` and that message. -/
theorem transcribe_fetch_status_error (w : World) (b : ReqBody) (fs : FS)
    (headers : List (String × String)) (r : FetchResponse)
    (hu : b.audio_url.truthy = true)
    (hh : requestHeaders w.META_WA_TOKEN b.audio_url.toStr = .ok headers)
    (hf : w.fetch b.audio_url.toStr headers = .responded r)
    (hok : r.ok = false) :
    (downloadAudio w b.audio_url.toStr).result
      = .error (statusError r.status r.statusText) ∧
    (statusError r.status r.statusText).message
      = "No se pudo descargar audio: " ++ toString r.status ++ " " ++ r.statusText ∧
    (toString r.status).data <:+: (statusError r.status r.statusText).message.data ∧
    r.statusText.data <:+: (statusError r.status r.statusText).message.data ∧
    (transcribe w ⟨some b⟩ fs).trace = [.fetch b.audio_url.toStr headers] ∧
    (transcribe w ⟨some b⟩ fs).fs = fs ∧
    (transcribe w ⟨some b⟩ fs).response
      = ⟨500, [("ok", .bool false),
          ("error", .str ("No se pudo descargar audio: " ++ toString r.status ++ " "
            ++ r.statusText))]⟩ := by
  have hdl : downloadAudio w b.audio_url.toStr
      = ⟨.error (statusError r.status r.statusText), [.fetch b.audio_url.toStr headers]⟩ := by
    simp [downloadAudio, hh, hf, hok]
  have hne : "No se pudo descargar audio: " ++ toString r.status ++ " " ++ r.statusText ≠ "" := by
    rw [String.append_assoc, String.append_assoc]
    exact append_ne_empty _ _ (by decide)
  have hresp := errorResponse_newError _ hne
  refine ⟨by rw [hdl], rfl, ?_, ?_, ?_, ?_, ?_⟩
  · refine ⟨"No se pudo descargar audio: ".data, " ".data ++ r.statusText.data, ?_⟩
    simp [statusError, newError, String.data_append, List.append_assoc]
  · refine ⟨"No se pudo descargar audio: ".data ++ (toString r.status).data ++ " ".data, [], ?_⟩
    simp [statusError, newError, String.data_append, List.append_assoc]
  · simp only [transcribe, Option.getD, hu, hdl, Bool.not_true, Bool.false_eq_true, if_false]
  · simp only [transcribe, Option.getD, hu, hdl, Bool.not_true, Bool.false_eq_true, if_false]
  · simp only [transcribe, Option.getD, hu, hdl, Bool.not_true, Bool.false_eq_true, if_false]
    exact hresp

/-- C7, at an audio host that answers 404 Not Found. -/
theorem transcribe_fetch_status_error_witness :
    (downloadAudio notFoundWorld "https://example.com/missing.ogg").result
      = .error (statusError 404 "Not Found") ∧
    (statusError 404 "Not Found").message
      = "No se pudo descargar audio: " ++ toString 404 ++ " " ++ "Not Found" ∧
    (toString 404).data <:+: (statusError 404 "Not Found").message.data ∧
    "Not Found".data <:+: (statusError 404 "Not Found").message.data ∧
    (transcribe notFoundWorld ⟨some (urlOnly "https://example.com/missing.ogg")⟩ []).trace
      = [.fetch "https://example.com/missing.ogg" []] ∧
    (transcribe notFoundWorld ⟨some (urlOnly "https://example.com/missing.ogg")⟩ []).fs = [] ∧
    (transcribe notFoundWorld ⟨some (urlOnly "https://example.com/missing.ogg")⟩ []).response
      = ⟨500, [("ok", .bool false),
          ("error", .str ("No se pudo descargar audio: " ++ toString 404 ++ " "
            ++ "Not Found"))]⟩ :=
  transcribe_fetch_status_error notFoundWorld (urlOnly "https://example.com/missing.ogg") []
    [] ⟨false, 404, "Not Found", none, .ok []⟩ (by decide) rfl rfl rfl

/-- C4: when the pipeline reaches the inference and the result yields no text
(the direct accessor is unavailable or returns a falsy value such as the empty
string, and the text of the first part of the first candidate is absent or
empty), the handler answers 500 with `ok: false` and the message
`Gemini no devolvió texto`. -/
theorem transcribe_no_text (w : World) (b : ReqBody) (fs : FS) (d : Download)
    (wav : Bytes) (result : Option GenResult) (v : JSVal)
    (hu : b.audio_url.truthy = true)
    (hd : (downloadAudio w b.audio_url.toStr).result = .ok d)
    (ht : (toWav16k w d.buf fs).result = .ok wav)
    (hg : w.generateContent model (sysInstruction b.language b.prompt) "audio/wav" wav
      = .ok result)
    (hv : directText result = .ok v) (hvf : v.truthy = false)
    (hc : (candidateText result).truthy = false) :
    (transcribe w ⟨some b⟩ fs).response
      = ⟨500, [("ok", .bool false), ("error", .str "Gemini no devolvió texto")]⟩ := by
  have he : extractTranscript result = .ok (.str "") := by
    simp [extractTranscript, hv, jsOr, hvf, hc]
  have hresp : errorResponse noTextError
      = ⟨500, [("ok", .bool false), ("error", .str "Gemini no devolvió texto")]⟩ :=
    errorResponse_newError _ (by decide)
  have hempty : (JSVal.str "").truthy = false := by decide
  simp only [transcribe, Option.getD, hu, hd, ht, hg, he, hempty, hresp, Bool.not_true,
    Bool.not_false, Bool.false_eq_true, if_false, if_true]

/-- C4, at an inference result that has no `response`. -/
theorem transcribe_no_text_witness :
    (transcribe silentWorld ⟨some (urlOnly "https://example.com/note.ogg")⟩ []).response
      = ⟨500, [("ok", .bool false), ("error", .str "Gemini no devolvió texto")]⟩ :=
  transcribe_no_text silentWorld (urlOnly "https://example.com/note.ogg") []
    ⟨[79, 103, 103], "audio/ogg"⟩ [82, 73, 70, 70] (some ⟨none, .undefined, none⟩) .undefined
    (by decide) rfl rfl rfl rfl rfl rfl

/-- When the fetch and the transcoding succeed and the expression of line 93
finds a non-empty text `t` under `result.response`, the handler answers 200
with exactly `ok: true, transcript: t, reply: t`; and every answer of the
handler with status 200 has `ok: true` and a truthy transcript equal to the
reply. -/
theorem transcribe_success (w : World) (b : ReqBody) (fs : FS) (d : Download)
    (wav : Bytes) (result : Option GenResult) (t : String)
    (hu : b.audio_url.truthy = true)
    (hd : (downloadAudio w b.audio_url.toStr).result = .ok d)
    (ht : (toWav16k w d.buf fs).result = .ok wav)
    (hg : w.generateContent model (sysInstruction b.language b.prompt) "audio/wav" wav
      = .ok result)
    (he : extractTranscript result = .ok (.str t)) (hne : t ≠ "") :
    (transcribe w ⟨some b⟩ fs).response
      = ⟨200, [("ok", .bool true), ("transcript", .str t), ("reply", .str t)]⟩ ∧
    ∀ (w₂ : World) (req : Request) (fs₂ : FS),
      (transcribe w₂ req fs₂).response.status = 200 →
      ∃ t₂ : JSVal, t₂.truthy = true ∧
        (transcribe w₂ req fs₂).response.json
          = [("ok", .bool true), ("transcript", t₂), ("reply", t₂)] := by
  constructor
  · have htr : (JSVal.str t).truthy = true := by simp [JSVal.truthy, hne]
    simp only [transcribe, Option.getD, hu, hd, ht, hg, he, htr, okResponse, Bool.not_true,
      Bool.false_eq_true, if_false]
  · intro w₂ req fs₂
    unfold transcribe
    simp only []
    split_ifs with h1
    · simp [missingUrlResponse]
    · split
      · simp [errorResponse]
      · split
        · simp [errorResponse]
        · split
          · simp [errorResponse]
          · split
            · simp [errorResponse]
            · split_ifs with h2
              · simp [errorResponse]
              · intro _
                exact ⟨_, by simpa using h2, rfl⟩

/-- The success envelope, at a reply that carries `hola` under `response`. -/
theorem transcribe_success_legacy :
    (transcribe legacyWorld ⟨some (urlOnly "https://example.com/note.ogg")⟩ []).response
      = ⟨200, [("ok", .bool true), ("transcript", .str "hola"), ("reply", .str "hola")]⟩ :=
  (transcribe_success legacyWorld (urlOnly "https://example.com/note.ogg") []
    ⟨[79, 103, 103], "audio/ogg"⟩ [82, 73, 70, 70] (directResult (.str "hola")) "hola"
    (by decide) rfl rfl rfl rfl (by decide)).1

/-- C6: the fetch succeeds, the transcoding succeeds and the inference client
replies with the non-empty text `hola` (as its `text` property and as the first
part of its first candidate), yet the handler, which looks for the text under
`result.response`, extracts the empty string and answers 500 with
`Gemini no devolvió texto` instead of 200 with the transcript. -/
theorem transcribe_genai_reply_fails :
    calmWorld.generateContent model (sysInstruction .undefined .undefined) "audio/wav"
      [82, 73, 70, 70] = .ok (genaiReply "hola") ∧
    (genaiReply "hola").map (fun r => r.text) = some (.str "hola") ∧
    (downloadAudio calmWorld "https://example.com/note.ogg").result
      = .ok ⟨[79, 103, 103], "audio/ogg"⟩ ∧
    (toWav16k calmWorld [79, 103, 103] []).result = .ok [82, 73, 70, 70] ∧
    extractTranscript (genaiReply "hola") = .ok (.str "") ∧
    (transcribe calmWorld ⟨some (urlOnly "https://example.com/note.ogg")⟩ []).trace
      = [.fetch "https://example.com/note.ogg" [],
         .writeFile "/tmp/in.ogg" [79, 103, 103],
         .ffmpegRun "/tmp/in.ogg" "/tmp/out.wav",
         .readFile "/tmp/out.wav",
         .unlink "/tmp/in.ogg",
         .unlink "/tmp/out.wav",
         .generateContent model (sysInstruction .undefined .undefined) "audio/wav"
           [82, 73, 70, 70]] ∧
    (transcribe calmWorld ⟨some (urlOnly "https://example.com/note.ogg")⟩ []).response
      = ⟨500, [("ok", .bool false), ("error", .str "Gemini no devolvió texto")]⟩ ∧
    (transcribe calmWorld ⟨some (urlOnly "https://example.com/note.ogg")⟩ []).response
      ≠ ⟨200, [("ok", .bool true), ("transcript", .str "hola"), ("reply", .str "hola")]⟩ := by
  refine ⟨rfl, rfl, rfl, rfl, rfl, by decide, by decide, by decide⟩

end Servimil
